import Mathlib

/-
  Verification development for the "Create order" page controller
  (admin-dev/themes/new-theme/js/pages/order/create/create-order-page.js).

  The JavaScript controller is shallowly embedded: its pure predicate
  `validateSelectedAddresses` becomes a Lean function over lists of address
  records whose flag fields are JavaScript values (the source tests the flags
  for truthiness, so the embedding keeps the dynamic typing); the event-bus
  handlers become pure functions that return the payload after the handler
  body ran, the controller state after it ran, and the ordered trace of
  collaborator/DOM calls the body issues; the shared debounce timer becomes a
  single optional scheduled task threaded through a timed event-loop runner.
-/

namespace CreateOrder

/-- A JavaScript runtime value, as far as the controller inspects one:
booleans, numbers, strings, `null` and `undefined`. -/
inductive JSValue where
  | vBool : Bool → JSValue
  | vNum : Int → JSValue
  | vStr : String → JSValue
  | vNull : JSValue
  | vUndefined : JSValue
deriving DecidableEq, Repr

/-- JavaScript truthiness of a value (`if (v)`). -/
def truthy : JSValue → Bool
  | .vBool b => b
  | .vNum n => n != 0
  | .vStr s => s != ""
  | .vNull => false
  | .vUndefined => false

/-- An address record as consumed by `validateSelectedAddresses`: the
controller only reads the `delivery` and `invoice` flags. -/
structure Address where
  delivery : JSValue
  invoice : JSValue
deriving DecidableEq, Repr

/-- The `for (const key in addresses)` loop body of
`CreateOrderPage.validateSelectedAddresses`, threading the two accumulator
flags `deliveryValid` and `invoiceValid` through the list of records. -/
def validateLoop : Bool → Bool → List Address → Bool
  | deliveryValid, invoiceValid, [] => deliveryValid && invoiceValid
  | deliveryValid, invoiceValid, address :: rest =>
      validateLoop
        (if truthy address.delivery then true else deliveryValid)
        (if truthy address.invoice then true else invoiceValid)
        rest

/-- `CreateOrderPage.validateSelectedAddresses` (create-order-page.js
lines 78-95): both accumulator flags start `false` and the loop result is
`deliveryValid && invoiceValid`. -/
def validateSelectedAddresses (addresses : List Address) : Bool :=
  validateLoop false false addresses

/-- Opaque shipping information: the controller only forwards it. -/
structure Shipping where
  data : Nat
deriving DecidableEq, Repr

/-- Opaque product entry of the cart: the controller only counts them. -/
structure Product where
  data : Nat
deriving DecidableEq, Repr

/-- Opaque cart-rules block: the controller only forwards it. -/
structure CartRules where
  data : Nat
deriving DecidableEq, Repr

/-- The cart-info snapshot delivered by the event bus, with the fields the
controller reads. -/
structure CartInfo where
  cartId : Int
  addresses : List Address
  shipping : Shipping
  products : List Product
  cartRules : CartRules
  currencyId : Int
  langId : Int
deriving DecidableEq, Repr

/-- The parsed JSON body of a failed AJAX response. -/
structure ResponseJSON where
  message : String
deriving DecidableEq, Repr

/-- The response object carried by a `cartCurrencyChangeFailed` event. -/
structure Response where
  responseJSON : ResponseJSON
deriving DecidableEq, Repr

/-- Identity tokens for the twelve collaborator objects the constructor
creates and assigns to fields (create-order-page.js lines 53-64). -/
structure Collaborators where
  cartProvider : Nat
  customerManager : Nat
  shippingRenderer : Nat
  addressesRenderer : Nat
  cartRulesRenderer : Nat
  router : Nat
  cartEditor : Nat
  cartRuleManager : Nat
  productManager : Nat
  productRenderer : Nat
  summaryRenderer : Nat
  summaryManager : Nat
deriving DecidableEq, Repr

/-- The mutable fields of a `CreateOrderPage` instance (`cartId`,
`customerId`, the shared debounce timer handle `timeoutId`) together with
the container and collaborator fields assigned in the constructor. -/
structure PageState where
  cartId : Option Int
  customerId : Option Int
  timeoutId : Option Nat
  container : Nat
  collaborators : Collaborators
deriving DecidableEq, Repr

/-- The constructor body (lines 48-67): `cartId` and `customerId` start
`null`, `timeoutId` is not yet assigned, and each collaborator field is
assigned exactly once. -/
def initialState (ctr : Nat) (collabs : Collaborators) : PageState :=
  { cartId := none, customerId := none, timeoutId := none,
    container := ctr, collaborators := collabs }

/-- The DOM values `_changeCartAddresses` reads from the two address
select boxes. -/
structure Dom where
  deliveryAddressSelectVal : String
  invoiceAddressSelectVal : String
deriving DecidableEq, Repr

/-- The product object built by `_initProductRemoveFromCart`. -/
structure ProductRef where
  productId : Int
  attributeId : Int
  customizationId : Int
deriving DecidableEq, Repr

/-- The product object built by `_initProductChangePrice`. -/
structure ProductPriceUpdate where
  productId : Int
  attributeId : Int
  customizationId : Int
  price : String
deriving DecidableEq, Repr

/-- The product object built by `_initProductChangeQty`. -/
structure ProductQtyUpdate where
  productId : Int
  attributeId : Int
  customizationId : Int
  newQty : String
deriving DecidableEq, Repr

/-- One collaborator or DOM call issued by a handler body, with the
arguments the source passes. -/
inductive Call where
  | addressesRender : List Address → Call
  | shippingRender : Shipping → Bool → Call
  | summaryRender : CartInfo → Call
  | cartRulesRenderBlock : CartRules → Bool → Call
  | productRenderList : List Product → Call
  | productCleanCartBlockAlerts : Call
  | productRenderCartBlockErrorAlert : String → Call
  | preselectCartCurrency : Int → Call
  | preselectCartLanguage : Int → Call
  | showCartBlock : Call
  | changeCartAddresses : Option Int → String → String → Call
  | loadCustomerCarts : Option Int → Call
  | loadCustomerOrders : Call
  | customerSearch : String → Call
  | productSearch : String → Call
  | cartRuleSearch : String → Call
  | selectCustomer : Call
  | loadEmptyCart : Int → Call
  | getCart : Int → Call
  | duplicateOrderCart : Int → Call
  | addCartRuleToCart : Int → Option Int → Call
  | removeCartRuleFromCart : Int → Option Int → Call
  | addProductToCart : Option Int → Call
  | removeProductFromCart : Option Int → ProductRef → Call
  | changeProductPrice : Option Int → Option Int → ProductPriceUpdate → Call
  | changeProductQty : Option Int → ProductQtyUpdate → Call
  | changeDeliveryOption : Option Int → String → Call
  | setFreeShipping : Option Int → String → Call
  | changeCartCurrency : Option Int → String → Call
  | changeCartLanguage : Option Int → String → Call
  | sendProcessOrderEmail : Option Int → Call
  | stopSearching : Call
  | blurCartRuleSearchInput : Call
deriving DecidableEq, Repr

/-- `_renderCartInfo` (lines 406-416): the render calls it issues, in
source order. -/
def renderCartInfo (ci : CartInfo) : List Call :=
  [.addressesRender ci.addresses,
   .cartRulesRenderBlock ci.cartRules (ci.products.length == 0),
   .shippingRender ci.shipping (ci.products.length == 0),
   .productRenderList ci.products,
   .summaryRender ci,
   .preselectCartCurrency ci.currencyId,
   .preselectCartLanguage ci.langId,
   .showCartBlock]

/-- `_changeCartAddresses` (lines 445-452): reads the two selected address
ids from the DOM and calls `cartEditor.changeCartAddresses` with the
current `cartId`. -/
def changeCartAddressesBody (s : PageState) (dom : Dom) : List Call :=
  [.changeCartAddresses s.cartId dom.deliveryAddressSelectVal
     dom.invoiceAddressSelectVal]

/-- The `cartLoaded` handler (lines 164-174).  Handlers are embedded as
functions returning the payload after the body ran, the controller state
after it ran, and the ordered trace of calls the body issues. -/
def onCartLoaded (ci : CartInfo) (s : PageState) (dom : Dom) :
    CartInfo × PageState × List Call :=
  let s1 : PageState := { s with cartId := some ci.cartId }
  (ci, s1,
    renderCartInfo ci ++
    (if ci.addresses.length != 0 && !(validateSelectedAddresses ci.addresses)
      then changeCartAddressesBody s1 dom else []) ++
    [.loadCustomerCarts s1.cartId, .loadCustomerOrders])

/-- The `cartAddressesChanged` handler (lines 181-187). -/
def onCartAddressesChanged (ci : CartInfo) (s : PageState) :
    CartInfo × PageState × List Call :=
  (ci, s,
    [.addressesRender ci.addresses,
     .shippingRender ci.shipping (ci.products.length == 0),
     .summaryRender ci])

/-- The `cartDeliveryOptionChanged` handler (lines 194-199). -/
def onDeliveryOptionChanged (ci : CartInfo) (s : PageState) :
    CartInfo × PageState × List Call :=
  (ci, s,
    [.shippingRender ci.shipping (ci.products.length == 0),
     .summaryRender ci])

/-- The `cartFreeShippingSet` handler (lines 206-212). -/
def onFreeShippingChanged (ci : CartInfo) (s : PageState) :
    CartInfo × PageState × List Call :=
  (ci, s,
    [.cartRulesRenderBlock ci.cartRules (ci.products.length == 0),
     .shippingRender ci.shipping (ci.products.length == 0),
     .summaryRender ci])

/-- The `cartLanguageChanged` handler (lines 219-223). -/
def onCartLanguageChanged (ci : CartInfo) (s : PageState) :
    CartInfo × PageState × List Call :=
  (ci, s, [.preselectCartLanguage ci.langId])

/-- The `cartCurrencyChanged` success handler (lines 232-235). -/
def onCartCurrencyChangedSuccess (ci : CartInfo) (s : PageState) :
    CartInfo × PageState × List Call :=
  (ci, s, [.productCleanCartBlockAlerts, .preselectCartCurrency ci.currencyId])

/-- The `cartCurrencyChangeFailed` handler (lines 238-240). -/
def onCartCurrencyChangeFailed (r : Response) (s : PageState) :
    Response × PageState × List Call :=
  (r, s, [.productRenderCartBlockErrorAlert r.responseJSON.message])

/-- `_initCustomerSelect` (lines 262-266): `selectCustomer` returns the
chosen id (taken here as an argument, with the call recorded), which is
stored in `customerId` and passed to `loadEmptyCart`. -/
def initCustomerSelect (s : PageState) (customerId : Int) :
    PageState × List Call :=
  ({ s with customerId := some customerId },
   [.selectCustomer, .loadEmptyCart customerId])

/-- `_initCartSelect` (lines 275-278). -/
def initCartSelect (s : PageState) (cartId : Int) : PageState × List Call :=
  (s, [.getCart cartId])

/-- `_initDuplicateOrderCart` (lines 285-288). -/
def initDuplicateOrderCart (s : PageState) (orderId : Int) :
    PageState × List Call :=
  (s, [.duplicateOrderCart orderId])

/-- A task handed to `setTimeout`: a delay and the deferred call. -/
structure ScheduledTask where
  delay : Nat
  action : Call
deriving DecidableEq, Repr

/-- `_initCustomerSearch` (lines 250-253): `clearTimeout(this.timeoutId)`
cancels whatever `this.timeoutId` currently names (returned as the middle
component), and the new timer id from `setTimeout` (the runtime-supplied
`freshId`) is stored in `timeoutId`. -/
def initCustomerSearch (s : PageState) (value : String) (freshId : Nat) :
    PageState × Option Nat × ScheduledTask :=
  ({ s with timeoutId := some freshId }, s.timeoutId,
   ⟨300, .customerSearch value⟩)

/-- `_initProductSearch` (lines 338-344): same debounce shape, dispatching
`productManager.search`. -/
def initProductSearch (s : PageState) (value : String) (freshId : Nat) :
    PageState × Option Nat × ScheduledTask :=
  ({ s with timeoutId := some freshId }, s.timeoutId,
   ⟨300, .productSearch value⟩)

/-- `_initCartRuleSearch` (lines 295-300): same debounce shape, dispatching
`cartRuleManager.search`. -/
def initCartRuleSearch (s : PageState) (value : String) (freshId : Nat) :
    PageState × Option Nat × ScheduledTask :=
  ({ s with timeoutId := some freshId }, s.timeoutId,
   ⟨300, .cartRuleSearch value⟩)

/-- `_addCartRuleToCart` mousedown handler (lines 308-314). -/
def onFoundCartRuleMousedown (s : PageState) (cartRuleId : Int) :
    PageState × List Call :=
  (s, [.addCartRuleToCart cartRuleId s.cartId])

/-- `_addCartRuleToCart` click handler (lines 315-317). -/
def onFoundCartRuleClick (s : PageState) : PageState × List Call :=
  (s, [.blurCartRuleSearchInput])

/-- Blur handler on the cart-rule search input (line 109). -/
def onCartRuleSearchBlur (s : PageState) : PageState × List Call :=
  (s, [.stopSearching])

/-- `_removeCartRuleFromCart` click handler (lines 325-329). -/
def onCartRuleDelete (s : PageState) (cartRuleId : Int) :
    PageState × List Call :=
  (s, [.removeCartRuleFromCart cartRuleId s.cartId])

/-- `_initProductRemoveFromCart` (lines 353-361). -/
def initProductRemoveFromCart (s : PageState) (p : ProductRef) :
    PageState × List Call :=
  (s, [.removeProductFromCart s.cartId p])

/-- `_initProductChangePrice` (lines 370-379). -/
def initProductChangePrice (s : PageState) (p : ProductPriceUpdate) :
    PageState × List Call :=
  (s, [.changeProductPrice s.cartId s.customerId p])

/-- `_initProductChangeQty` (lines 388-397). -/
def initProductChangeQty (s : PageState) (p : ProductQtyUpdate) :
    PageState × List Call :=
  (s, [.changeProductQty s.cartId p])

/-- Change handler on the address select (line 154), delegating to
`_changeCartAddresses`. -/
def onAddressSelectChange (s : PageState) (dom : Dom) :
    PageState × List Call :=
  (s, changeCartAddressesBody s dom)

/-- Change handler on the delivery-option select (lines 128-130). -/
def onDeliveryOptionSelectChange (s : PageState) (value : String) :
    PageState × List Call :=
  (s, [.changeDeliveryOption s.cartId value])

/-- Change handler on the free-shipping switch (lines 132-134). -/
def onFreeShippingSwitchChange (s : PageState) (value : String) :
    PageState × List Call :=
  (s, [.setFreeShipping s.cartId value])

/-- Click handler on the add-to-cart button (lines 136-138). -/
def onAddToCartClick (s : PageState) : PageState × List Call :=
  (s, [.addProductToCart s.cartId])

/-- Change handler on the cart-currency select (lines 140-142). -/
def onCartCurrencySelectChange (s : PageState) (value : String) :
    PageState × List Call :=
  (s, [.changeCartCurrency s.cartId value])

/-- Change handler on the cart-language select (lines 144-146). -/
def onCartLanguageSelectChange (s : PageState) (value : String) :
    PageState × List Call :=
  (s, [.changeCartLanguage s.cartId value])

/-- Click handler on the process-order-email button (lines 148-150). -/
def onSendProcessOrderEmailClick (s : PageState) : PageState × List Call :=
  (s, [.sendProcessOrderEmail s.cartId])

/-- The event-bus event names the controller subscribes to. -/
inductive EventName where
  | cartLoaded
  | cartAddressesChanged
  | cartDeliveryOptionChanged
  | cartFreeShippingSet
  | cartCurrencyChanged
  | cartCurrencyChangeFailed
  | cartLanguageChanged
deriving DecidableEq, Repr

/-- Tags naming the handler closures the controller registers. -/
inductive HandlerTag where
  | loadedHandler
  | addressesChangedHandler
  | deliveryOptionChangedHandler
  | freeShippingChangedHandler
  | currencySuccessHandler
  | currencyFailureHandler
  | languageChangedHandler
deriving DecidableEq, Repr

/-- The two `EventEmitter.on` registrations performed by
`_onCartCurrencyChanged` (lines 230-241): the success handler and the
failure handler are registered separately, each under its own event name. -/
def currencyChangeRegistrations : List (EventName × HandlerTag) :=
  [(.cartCurrencyChanged, .currencySuccessHandler),
   (.cartCurrencyChangeFailed, .currencyFailureHandler)]

/-- Recognizes a `cartEditor.changeCartAddresses` call in a trace. -/
def isChangeCartAddressesCall : Call → Bool
  | .changeCartAddresses _ _ _ => true
  | _ => false

/-- The handler left the constructor-assigned fields (collaborators and
container) untouched. -/
def PreservesCollabs (s s' : PageState) : Prop :=
  s'.collaborators = s.collaborators ∧ s'.container = s.container

/-- The three debounced search inputs. -/
inductive Channel where
  | customer
  | product
  | cartRule
deriving DecidableEq, Repr

/-- Dispatches an input event on a channel to its debounce handler. -/
def searchHandlerFor :
    Channel → PageState → String → Nat → PageState × Option Nat × ScheduledTask
  | .customer => initCustomerSearch
  | .product => initProductSearch
  | .cartRule => initCartRuleSearch

/-- The downstream search call a channel dispatches. -/
def searchAction : Channel → String → Call
  | .customer, v => .customerSearch v
  | .product, v => .productSearch v
  | .cartRule, v => .cartRuleSearch v

/-- A keystroke on one of the debounced inputs: its time, channel, and the
input's current value. -/
structure InputEvent where
  time : Nat
  channel : Channel
  value : String
deriving DecidableEq, Repr

/-- Event-loop semantics of the shared debounce timer (JS `setTimeout` /
`clearTimeout` with the single shared `this.timeoutId` slot), run over a
time-ordered list of input events.  The pending slot holds at most one
scheduled task (fire time, action).  A pending task whose fire time has
arrived by the next event's time fires first (the stale `clearTimeout` is
then a no-op); otherwise the event's handler cancels it.  Either way the
handler schedules its own task at event time + delay.  A task still pending
after the last event fires.  Returns the dispatches as (time, call). -/
def runDebounce :
    PageState → Nat → Option (Nat × Call) → List InputEvent → List (Nat × Call)
  | _, _, none, [] => []
  | _, _, some t, [] => [t]
  | s, freshId, none, e :: rest =>
      runDebounce (searchHandlerFor e.channel s e.value freshId).1 (freshId + 1)
        (some (e.time + (searchHandlerFor e.channel s e.value freshId).2.2.delay,
          (searchHandlerFor e.channel s e.value freshId).2.2.action)) rest
  | s, freshId, some (ft, c), e :: rest =>
      if ft ≤ e.time then
        (ft, c) ::
          runDebounce (searchHandlerFor e.channel s e.value freshId).1
            (freshId + 1)
            (some (e.time + (searchHandlerFor e.channel s e.value freshId).2.2.delay,
              (searchHandlerFor e.channel s e.value freshId).2.2.action)) rest
      else
        runDebounce (searchHandlerFor e.channel s e.value freshId).1
          (freshId + 1)
          (some (e.time + (searchHandlerFor e.channel s e.value freshId).2.2.delay,
            (searchHandlerFor e.channel s e.value freshId).2.2.action)) rest

/-- Concrete collaborator tokens for witness instances. -/
def sampleCollaborators : Collaborators :=
  ⟨0, 1, 2, 3, 4, 5, 6, 7, 8, 9, 10, 11⟩

/-- A freshly constructed page state for witness instances. -/
def sampleState : PageState := initialState 0 sampleCollaborators

/-- A sample product search phrase. -/
def productPhrase : String := "laptop"

/-- A sample cart-rule search phrase. -/
def cartRulePhrase : String := "promo"

theorem validateLoop_eq_any (l : List Address) : ∀ dv iv : Bool,
    validateLoop dv iv l =
      ((dv || l.any fun a => truthy a.delivery) &&
       (iv || l.any fun a => truthy a.invoice)) := by
  induction l with
  | nil => intro dv iv; simp [validateLoop]
  | cons a rest ih =>
      intro dv iv
      rw [validateLoop, ih]
      cases hd : truthy a.delivery <;> cases hi : truthy a.invoice <;>
        simp [hd, hi, List.any_cons]

theorem perm_any_eq (p : Address → Bool) (l l' : List Address)
    (h : l.Perm l') : l.any p = l'.any p := by
  apply Bool.eq_iff_iff.mpr
  simp only [List.any_eq_true]
  constructor
  · rintro ⟨a, ha, hp⟩; exact ⟨a, h.mem_iff.mp ha, hp⟩
  · rintro ⟨a, ha, hp⟩; exact ⟨a, h.mem_iff.mpr ha, hp⟩

theorem searchHandlerFor_task (ch : Channel) (s : PageState) (v : String)
    (f : Nat) :
    (searchHandlerFor ch s v f).2.2 = ⟨300, searchAction ch v⟩ := by
  cases ch <;> rfl

theorem runDebounce_state_irrel (evts : List InputEvent) :
    ∀ (s s' : PageState) (f f' : Nat) (p : Option (Nat × Call)),
      runDebounce s f p evts = runDebounce s' f' p evts := by
  induction evts with
  | nil => intro s s' f f' p; cases p <;> rfl
  | cons e rest ih =>
      intro s s' f f' p
      cases p with
      | none =>
          simp only [runDebounce, searchHandlerFor_task]
          exact ih _ _ _ _ _
      | some tc =>
          obtain ⟨ft, c⟩ := tc
          simp only [runDebounce, searchHandlerFor_task]
          by_cases hft : ft ≤ e.time
          · rw [if_pos hft, if_pos hft]
            exact congrArg _ (ih _ _ _ _ _)
          · rw [if_neg hft, if_neg hft]
            exact ih _ _ _ _ _

/-- C1: for every list of address records, `validateSelectedAddresses`
returns `true` if and only if some record has a truthy `delivery` flag and
some record (possibly the same one) has a truthy `invoice` flag; in
particular it returns `false` on the empty list and on any list in which
either role is entirely absent. -/
theorem validateSelectedAddresses_iff (addresses : List Address) :
    validateSelectedAddresses addresses = true ↔
      ((∃ a ∈ addresses, truthy a.delivery) ∧
       (∃ a ∈ addresses, truthy a.invoice)) := by
  rw [validateSelectedAddresses, validateLoop_eq_any]
  simp [List.any_eq_true]

/-- The single-record list whose flags are the number `1`: truthy, but not
strictly equal (`===`) to the boolean `true`. -/
def numericFlagAddresses : List Address := [⟨.vNum 1, .vNum 1⟩]

/-- C2 counterexample: on `[{delivery: 1, invoice: 1}]` the validator
returns `true`, yet no record in the list has `delivery === true` (nor
`invoice === true`): the source tests truthiness, not strict equality with
the boolean `true`. -/
theorem validate_true_yet_no_strict_boolean :
    validateSelectedAddresses numericFlagAddresses = true ∧
    (numericFlagAddresses.any fun a => a.delivery == JSValue.vBool true) = false ∧
    (numericFlagAddresses.any fun a => a.invoice == JSValue.vBool true) = false := by
  decide

/-- C2 amended: if `validateSelectedAddresses` returns `true` then at least
one address has a truthy `delivery` value and at least one (possibly the
same entry) has a truthy `invoice` value — where for boolean-valued flags
truthiness coincides with strict equality to `true`. -/
theorem validate_true_implies_truthy_roles (addresses : List Address)
    (h : validateSelectedAddresses addresses = true) :
    (∃ a ∈ addresses, truthy a.delivery) ∧
    (∃ a ∈ addresses, truthy a.invoice) := by
  rw [validateSelectedAddresses, validateLoop_eq_any] at h
  simpa [List.any_eq_true] using h

/-- Witness for the amended C2 at a concrete input. -/
theorem validate_true_implies_truthy_roles_witness :
    (∃ a ∈ numericFlagAddresses, truthy a.delivery) ∧
    (∃ a ∈ numericFlagAddresses, truthy a.invoice) :=
  validate_true_implies_truthy_roles numericFlagAddresses (by decide)

/-- C9: `validateSelectedAddresses` is order-independent — permuting the
list of address records never changes the result.  (The embedding is a pure
function of its argument, mirroring that the source loop only reads the
records and writes two local flags.) -/
theorem validateSelectedAddresses_perm (l l' : List Address)
    (h : l.Perm l') :
    validateSelectedAddresses l = validateSelectedAddresses l' := by
  rw [validateSelectedAddresses, validateSelectedAddresses,
    validateLoop_eq_any, validateLoop_eq_any,
    perm_any_eq (fun a => truthy a.delivery) l l' h,
    perm_any_eq (fun a => truthy a.invoice) l l' h]

/-- Witness for C9 at a concrete two-element swap. -/
theorem validateSelectedAddresses_perm_witness :
    validateSelectedAddresses [⟨.vBool true, .vNull⟩, ⟨.vNull, .vBool true⟩] =
      validateSelectedAddresses [⟨.vNull, .vBool true⟩, ⟨.vBool true, .vNull⟩] :=
  validateSelectedAddresses_perm _ _
    (List.Perm.swap (⟨.vNull, .vBool true⟩ : Address)
      (⟨.vBool true, .vNull⟩ : Address) [])

/-- C3: the three debounced search inputs share the single timer slot
`this.timeoutId`: any keystroke arriving strictly before a pending
dispatch's fire time cancels it, regardless of which input scheduled it;
in particular a product-search keystroke at t=0 followed by a
cart-rule-search keystroke at t=50 yields no product-search dispatch and
exactly one cart-rule dispatch, at t=350. -/
theorem debounce_cross_cancellation (s : PageState) (f : Nat)
    (e1 e2 : InputEvent) (rest : List InputEvent)
    (h : e2.time < e1.time + 300) (p c : String) :
    runDebounce s f none (e1 :: e2 :: rest) =
      runDebounce s f none (e2 :: rest) ∧
    runDebounce s f none [⟨0, .product, p⟩, ⟨50, .cartRule, c⟩] =
      [(350, .cartRuleSearch c)] := by
  constructor
  · simp only [runDebounce, searchHandlerFor_task]
    rw [if_neg (by omega)]
    exact runDebounce_state_irrel rest _ _ _ _ _
  · simp [runDebounce, searchHandlerFor_task, searchAction]

/-- Witness for C3 at the concrete keystroke pair from the claim. -/
theorem debounce_cross_cancellation_witness :
    runDebounce sampleState 0 none
        [⟨0, .product, productPhrase⟩, ⟨50, .cartRule, cartRulePhrase⟩] =
      runDebounce sampleState 0 none [⟨50, .cartRule, cartRulePhrase⟩] ∧
    runDebounce sampleState 0 none
        [⟨0, .product, productPhrase⟩, ⟨50, .cartRule, cartRulePhrase⟩] =
      [(350, .cartRuleSearch cartRulePhrase)] :=
  debounce_cross_cancellation sampleState 0 ⟨0, .product, productPhrase⟩
    ⟨50, .cartRule, cartRulePhrase⟩ [] (by decide) productPhrase cartRulePhrase

/-- C4: for keystrokes on the same debounced input at t=0, t=100 and t=250
with delay 300, exactly one dispatch occurs, at t=550, carrying the value
of the t=250 keystroke — on each of the three channels. -/
theorem debounce_last_event_wins (s : PageState) (f : Nat)
    (v0 v1 v2 : String) :
    (runDebounce s f none
        [⟨0, .customer, v0⟩, ⟨100, .customer, v1⟩, ⟨250, .customer, v2⟩] =
      [(550, .customerSearch v2)]) ∧
    (runDebounce s f none
        [⟨0, .product, v0⟩, ⟨100, .product, v1⟩, ⟨250, .product, v2⟩] =
      [(550, .productSearch v2)]) ∧
    (runDebounce s f none
        [⟨0, .cartRule, v0⟩, ⟨100, .cartRule, v1⟩, ⟨250, .cartRule, v2⟩] =
      [(550, .cartRuleSearch v2)]) := by
  refine ⟨?_, ?_, ?_⟩ <;>
    simp [runDebounce, searchHandlerFor_task, searchAction]

/-- C5: the `cartAddressesChanged` handler invokes the addresses renderer,
the shipping renderer and the summary renderer exactly once each, with the
payload's addresses, its shipping paired with the emptiness of its product
list, and the whole payload respectively — and invokes nothing else. -/
theorem onCartAddressesChanged_renders_each_once (ci : CartInfo)
    (s : PageState) :
    (onCartAddressesChanged ci s).2.2.count (.addressesRender ci.addresses)
        = 1 ∧
    (onCartAddressesChanged ci s).2.2.count
        (.shippingRender ci.shipping (ci.products.length == 0)) = 1 ∧
    (onCartAddressesChanged ci s).2.2.count (.summaryRender ci) = 1 ∧
    ∀ call ∈ (onCartAddressesChanged ci s).2.2,
      call = .addressesRender ci.addresses ∨
      call = .shippingRender ci.shipping (ci.products.length == 0) ∨
      call = .summaryRender ci := by
  refine ⟨?_, ?_, ?_, ?_⟩
  · simp [onCartAddressesChanged, List.count_cons]
  · simp [onCartAddressesChanged, List.count_cons]
  · simp [onCartAddressesChanged, List.count_cons]
  · intro call hc
    simp only [onCartAddressesChanged, List.mem_cons, List.not_mem_nil,
      or_false] at hc
    tauto

/-- C6: `_onCartCurrencyChanged` registers two independent subscriptions —
the success handler under `cartCurrencyChanged`, which clears the
cart-block alerts and preselects the payload's currency id, and the
failure handler under `cartCurrencyChangeFailed`, which only projects
`response.responseJSON.message` into an error alert via the product
renderer and performs no other recovery. -/
theorem currency_change_two_subscriptions (ci : CartInfo) (r : Response)
    (s : PageState) :
    currencyChangeRegistrations =
      [(.cartCurrencyChanged, .currencySuccessHandler),
       (.cartCurrencyChangeFailed, .currencyFailureHandler)] ∧
    (onCartCurrencyChangeFailed r s).2.2 =
      [.productRenderCartBlockErrorAlert r.responseJSON.message] ∧
    (onCartCurrencyChangeFailed r s).2.1 = s ∧
    (onCartCurrencyChangedSuccess ci s).2.2 =
      [.productCleanCartBlockAlerts, .preselectCartCurrency ci.currencyId] :=
  ⟨rfl, rfl, rfl, rfl⟩

/-- C7: every event-bus handler returns its payload unchanged — the
handler bodies only read payload fields, never assign to them. -/
theorem handlers_preserve_payload (ci : CartInfo) (r : Response)
    (s : PageState) (dom : Dom) :
    (onCartLoaded ci s dom).1 = ci ∧
    (onCartAddressesChanged ci s).1 = ci ∧
    (onDeliveryOptionChanged ci s).1 = ci ∧
    (onFreeShippingChanged ci s).1 = ci ∧
    (onCartCurrencyChangedSuccess ci s).1 = ci ∧
    (onCartCurrencyChangeFailed r s).1 = r ∧
    (onCartLanguageChanged ci s).1 = ci :=
  ⟨rfl, rfl, rfl, rfl, rfl, rfl, rfl⟩

/-- C8: the constructor assigns `cartId = null`, `customerId = null` and
each collaborator field exactly once, and every handler of the controller
leaves the collaborator and container fields untouched — the only fields a
handler may write are `cartId`, `customerId` and the timer handle. -/
theorem handlers_touch_only_mutable_fields (s : PageState) (dom : Dom)
    (ci : CartInfo) (r : Response) (v : String) (freshId ctr : Nat)
    (collabs : Collaborators) (customerId cartId orderId cartRuleId : Int)
    (pRef : ProductRef) (pPrice : ProductPriceUpdate)
    (pQty : ProductQtyUpdate) :
    (initialState ctr collabs).collaborators = collabs ∧
    (initialState ctr collabs).cartId = none ∧
    (initialState ctr collabs).customerId = none ∧
    PreservesCollabs s (onCartLoaded ci s dom).2.1 ∧
    PreservesCollabs s (onCartAddressesChanged ci s).2.1 ∧
    PreservesCollabs s (onDeliveryOptionChanged ci s).2.1 ∧
    PreservesCollabs s (onFreeShippingChanged ci s).2.1 ∧
    PreservesCollabs s (onCartCurrencyChangedSuccess ci s).2.1 ∧
    PreservesCollabs s (onCartCurrencyChangeFailed r s).2.1 ∧
    PreservesCollabs s (onCartLanguageChanged ci s).2.1 ∧
    PreservesCollabs s (initCustomerSelect s customerId).1 ∧
    PreservesCollabs s (initCartSelect s cartId).1 ∧
    PreservesCollabs s (initDuplicateOrderCart s orderId).1 ∧
    PreservesCollabs s (initCustomerSearch s v freshId).1 ∧
    PreservesCollabs s (initProductSearch s v freshId).1 ∧
    PreservesCollabs s (initCartRuleSearch s v freshId).1 ∧
    PreservesCollabs s (onFoundCartRuleMousedown s cartRuleId).1 ∧
    PreservesCollabs s (onFoundCartRuleClick s).1 ∧
    PreservesCollabs s (onCartRuleSearchBlur s).1 ∧
    PreservesCollabs s (onCartRuleDelete s cartRuleId).1 ∧
    PreservesCollabs s (initProductRemoveFromCart s pRef).1 ∧
    PreservesCollabs s (initProductChangePrice s pPrice).1 ∧
    PreservesCollabs s (initProductChangeQty s pQty).1 ∧
    PreservesCollabs s (onAddressSelectChange s dom).1 ∧
    PreservesCollabs s (onDeliveryOptionSelectChange s v).1 ∧
    PreservesCollabs s (onFreeShippingSwitchChange s v).1 ∧
    PreservesCollabs s (onAddToCartClick s).1 ∧
    PreservesCollabs s (onCartCurrencySelectChange s v).1 ∧
    PreservesCollabs s (onCartLanguageSelectChange s v).1 ∧
    PreservesCollabs s (onSendProcessOrderEmailClick s).1 :=
  ⟨rfl, rfl, rfl, ⟨rfl, rfl⟩, ⟨rfl, rfl⟩, ⟨rfl, rfl⟩, ⟨rfl, rfl⟩,
   ⟨rfl, rfl⟩, ⟨rfl, rfl⟩, ⟨rfl, rfl⟩, ⟨rfl, rfl⟩, ⟨rfl, rfl⟩,
   ⟨rfl, rfl⟩, ⟨rfl, rfl⟩, ⟨rfl, rfl⟩, ⟨rfl, rfl⟩, ⟨rfl, rfl⟩,
   ⟨rfl, rfl⟩, ⟨rfl, rfl⟩, ⟨rfl, rfl⟩, ⟨rfl, rfl⟩, ⟨rfl, rfl⟩,
   ⟨rfl, rfl⟩, ⟨rfl, rfl⟩, ⟨rfl, rfl⟩, ⟨rfl, rfl⟩, ⟨rfl, rfl⟩,
   ⟨rfl, rfl⟩, ⟨rfl, rfl⟩, ⟨rfl, rfl⟩⟩

/-- C10: the `cartLoaded` handler stores the payload's `cartId` in the
controller, and its trace contains a `cartEditor.changeCartAddresses` call
— with the new cart id and the DOM-selected delivery and invoice address
ids — exactly when the payload's address list is non-empty and fails
`validateSelectedAddresses`; otherwise the trace contains none. -/
theorem onCartLoaded_address_change_condition (ci : CartInfo)
    (s : PageState) (dom : Dom) :
    (onCartLoaded ci s dom).2.1.cartId = some ci.cartId ∧
    (onCartLoaded ci s dom).2.2.filter isChangeCartAddressesCall =
      (if ci.addresses.length != 0 && !(validateSelectedAddresses ci.addresses)
        then [.changeCartAddresses (some ci.cartId)
                dom.deliveryAddressSelectVal dom.invoiceAddressSelectVal]
        else []) := by
  constructor
  · rfl
  · by_cases hc :
      (ci.addresses.length != 0 && !(validateSelectedAddresses ci.addresses))
        = true
    · simp [onCartLoaded, renderCartInfo, changeCartAddressesBody,
        isChangeCartAddressesCall, hc]
    · simp [onCartLoaded, renderCartInfo, changeCartAddressesBody,
        isChangeCartAddressesCall, hc]

end CreateOrder
